import Mathlib

/-!
# Verification of the voyager-backend seed generators

Shallow embedding of the seed-generation pipeline of `supabase/seeds_generators`
(Python) into Lean 4, together with theorems settling the specification claims.

Conventions used throughout:
* Python strings are Lean `String`s; `str.upper()` / `str.lower()` are modelled
  for the ASCII fragment (`Char.toUpper` / `Char.toLower`), which coincides with
  Python on the data these functions receive (ISO codes, SQL text, MIME types).
* Fallible Python code (functions that can raise) returns `Except String α`;
  the error payloads are abbreviated messages, only success/failure and the
  successful values are meaningful.
* External effects (HTTP fetches, storage uploads, palette extraction, the
  database) are passed in as explicit oracle functions or pre-recorded
  outcomes, so each generator body is a pure function of its inputs.
-/

/-- The single-quote character (written via its code point). -/
def quoteChar : Char := Char.ofNat 39

/-- Python `str.upper()` restricted to ASCII (`utils` code only uppercases
ISO country / language / currency codes). -/
def pyUpper (s : String) : String := ⟨s.data.map Char.toUpper⟩

/-- Python `str.lower()` restricted to ASCII (used on error messages and MIME
parameters). -/
def pyLower (s : String) : String := ⟨s.data.map Char.toLower⟩

/-! ## `BaseGenerator.sql_escape` / `format_sql_value`
From `generators/base_generator.py`: `value.replace("'", "''")` and
`f"'{BaseGenerator.sql_escape(value)}'"`. -/

/-- `str.replace("'", "''")` on the character list: every single quote is
doubled, all other characters are kept. -/
def sqlEscapeList : List Char → List Char
  | [] => []
  | c :: rest =>
    if c = quoteChar then quoteChar :: quoteChar :: sqlEscapeList rest
    else c :: sqlEscapeList rest

/-- `BaseGenerator.sql_escape`: escape single quotes for SQL string literals. -/
def sql_escape (value : String) : String := ⟨sqlEscapeList value.data⟩

/-- `BaseGenerator.format_sql_value`: wrap the escaped value in single quotes. -/
def format_sql_value (value : String) : String :=
  ⟨[quoteChar]⟩ ++ sql_escape value ++ ⟨[quoteChar]⟩

/-- Decoder described by the claim: collapse each doubled single quote back to
a single quote. -/
def collapseQuotes : List Char → List Char
  | [] => []
  | [c] => [c]
  | c :: c2 :: rest =>
    if c = quoteChar ∧ c2 = quoteChar then quoteChar :: collapseQuotes rest
    else c :: collapseQuotes (c2 :: rest)

/-- Decoder described by the claim: strip the wrapping quotes, then collapse
doubled quotes. -/
def sqlUnquote (s : String) : String := ⟨collapseQuotes s.data.tail.dropLast⟩

lemma collapseQuotes_cons_ne (c : Char) (h : c ≠ quoteChar) (l : List Char) :
    collapseQuotes (c :: l) = c :: collapseQuotes l := by
  cases l with
  | nil => rfl
  | cons d ds => simp [collapseQuotes, h]

lemma collapseQuotes_sqlEscapeList (l : List Char) :
    collapseQuotes (sqlEscapeList l) = l := by
  induction l with
  | nil => rfl
  | cons c rest ih =>
    by_cases h : c = quoteChar
    · subst h
      simp [sqlEscapeList, collapseQuotes, ih]
    · rw [sqlEscapeList, if_neg h, collapseQuotes_cons_ne c h, ih]

/-- C6. For every string `s`, `format_sql_value s` is `s` wrapped in single
quotes with every inner quote doubled, and stripping the wrapping quotes then
collapsing doubled quotes recovers exactly `s`. -/
theorem c6_sql_escape_round_trip (s : String) :
    format_sql_value s = ⟨quoteChar :: sqlEscapeList s.data ++ [quoteChar]⟩ ∧
    sqlUnquote (format_sql_value s) = s := by
  have hdata : (format_sql_value s).data =
      quoteChar :: sqlEscapeList s.data ++ [quoteChar] := by
    simp [format_sql_value, sql_escape, String.data_append]
  constructor
  · rw [← hdata]
  · unfold sqlUnquote
    rw [hdata, List.cons_append, List.tail_cons, List.dropLast_concat,
      collapseQuotes_sqlEscapeList]

/-! ## `ColorExtractor.get_muted_color_with_alpha`
From `utils/palette/color_extractor.py`. A vibrant palette is modelled by its
two swatches of interest; a swatch carries its `rgb` triple. The Python
`int((alpha_percent / 100.0) * 255)` truncates the binary64 product; for every
`alpha_percent` in the documented domain 0..100 that equals the integer
division `alpha_percent * 255 / 100` (the float product never crosses an
integer boundary, checked exhaustively over the domain), which is how it is
embedded here. -/

/-- A palette swatch: the `rgb` triple of a vibrant color. -/
structure Swatch where
  r : Nat
  g : Nat
  b : Nat

/-- A vibrant palette restricted to the two swatches the extractor reads. -/
structure Palette where
  muted : Option Swatch
  dark_muted : Option Swatch

/-- `ColorExtractor.DEFAULT_COLOR`: black with 80% alpha, used as fallback. -/
def DEFAULT_COLOR : String := "#CC000000"

/-- Python `f"{n:02X}"`: uppercase hex, left-padded with zeros to width 2. -/
def pyFormat02X (n : Nat) : String :=
  let ds := (Nat.toDigits 16 n).map Char.toUpper
  ⟨List.replicate (2 - ds.length) '0' ++ ds⟩

/-- The alpha byte computed by the extractor:
`int((alpha_percent / 100.0) * 255)` (see the section comment). -/
def alpha_value (alpha_percent : Nat) : Nat := alpha_percent * 255 / 100

/-- `ColorExtractor.get_muted_color_with_alpha`: ARGB hex string from the
muted (or dark-muted) swatch, falling back to `DEFAULT_COLOR`. The
`try`/`except` around the conversion cannot fire in the embedding because a
swatch always carries a well-formed `rgb` triple. -/
def get_muted_color_with_alpha (palette : Option Palette) (alpha_percent : Nat) : String :=
  match palette with
  | none => DEFAULT_COLOR
  | some p =>
    match (match p.muted with | some s => some s | none => p.dark_muted) with
    | none => DEFAULT_COLOR
    | some s =>
      "#" ++ pyFormat02X (alpha_value alpha_percent) ++
        pyFormat02X s.r ++ pyFormat02X s.g ++ pyFormat02X s.b

/-- The alpha byte the claim prescribes: `round(alpha_percent / 100 * 255)`
as exact rational rounding to the nearest integer (ties away from zero; the
counterexample below is not a tie, so the tie rule is irrelevant there). -/
def specAlphaRound (alpha_percent : Nat) : Nat :=
  (alpha_percent * 255 * 2 + 100) / 200

/-- An uppercase hexadecimal digit. -/
def isHexUpperDigit (c : Char) : Bool :=
  (Char.ofNat 48 ≤ c && c ≤ Char.ofNat 57) || (Char.ofNat 65 ≤ c && c ≤ Char.ofNat 70)

set_option maxRecDepth 8000 in
lemma pyFormat02X_spec : ∀ n < 256,
    (pyFormat02X n).length = 2 ∧ ((pyFormat02X n).data.all isHexUpperDigit) = true := by
  decide

lemma alpha_value_le (a : Nat) (ha : a ≤ 100) : alpha_value a < 256 := by
  have h : a * 255 / 100 ≤ 100 * 255 / 100 :=
    Nat.div_le_div_right (Nat.mul_le_mul_right 255 ha)
  unfold alpha_value
  omega

/-- C2 (amended). For `alpha_percent ≤ 100`: a `None` palette or a palette
with neither swatch yields the fixed fallback `"#CC000000"`; a present swatch
`(r, g, b)` yields `"#"` followed by the truncated alpha byte
`alpha_percent * 255 / 100` and `r`, `g`, `b`, each as two uppercase hex
digits (nine characters in total, all hex after the `#`). -/
theorem c2_muted_color_with_alpha (p : Palette) (a r g b : Nat) (ha : a ≤ 100)
    (hr : r < 256) (hg : g < 256) (hb : b < 256)
    (hm : p.muted = some ⟨r, g, b⟩ ∨ (p.muted = none ∧ p.dark_muted = some ⟨r, g, b⟩)) :
    get_muted_color_with_alpha (some p) a =
      "#" ++ pyFormat02X (a * 255 / 100) ++ pyFormat02X r ++ pyFormat02X g ++ pyFormat02X b ∧
    (get_muted_color_with_alpha (some p) a).length = 9 ∧
    ((get_muted_color_with_alpha (some p) a).data.tail.all isHexUpperDigit) = true ∧
    get_muted_color_with_alpha none a = DEFAULT_COLOR ∧
    (∀ q : Palette, q.muted = none → q.dark_muted = none →
      get_muted_color_with_alpha (some q) a = DEFAULT_COLOR) := by
  have hmain : get_muted_color_with_alpha (some p) a =
      "#" ++ pyFormat02X (a * 255 / 100) ++ pyFormat02X r ++ pyFormat02X g ++ pyFormat02X b := by
    rcases hm with h | ⟨h1, h2⟩
    · simp [get_muted_color_with_alpha, h, alpha_value]
    · simp [get_muted_color_with_alpha, h1, h2, alpha_value]
  have hA := pyFormat02X_spec (a * 255 / 100) (alpha_value_le a ha)
  have hR := pyFormat02X_spec r hr
  have hG := pyFormat02X_spec g hg
  have hB := pyFormat02X_spec b hb
  refine ⟨hmain, ?_, ?_, rfl, ?_⟩
  · rw [hmain]
    simp only [String.length_append]
    rw [hA.1, hR.1, hG.1, hB.1]
    decide
  · rw [hmain]
    simp [String.data_append, List.append_assoc, List.singleton_append, List.tail_cons,
      List.all_append, hA.2, hR.2, hG.2, hB.2]
  · intro q h1 h2
    simp [get_muted_color_with_alpha, h1, h2]

/-- Witness for C2: palette with muted swatch `(17, 34, 51)` at 80% alpha. -/
theorem c2_muted_color_with_alpha_witness :
    get_muted_color_with_alpha (some ⟨some ⟨17, 34, 51⟩, none⟩) 80 =
      "#" ++ pyFormat02X (80 * 255 / 100) ++ pyFormat02X 17 ++ pyFormat02X 34 ++ pyFormat02X 51 ∧
    (get_muted_color_with_alpha (some ⟨some ⟨17, 34, 51⟩, none⟩) 80).length = 9 := by
  have h := c2_muted_color_with_alpha ⟨some ⟨17, 34, 51⟩, none⟩ 80 17 34 51
    (by decide) (by decide) (by decide) (by decide) (Or.inl rfl)
  exact ⟨h.1, h.2.1⟩

/-- Counterexample for C2 as stated: at `alpha_percent = 9` the code truncates
`22.95` to the alpha byte `0x16 = 22`, while the claim prescribes
`round(9 / 100 * 255) = 23`, i.e. `"#17000000"`. -/
theorem c2_counterexample :
    get_muted_color_with_alpha (some ⟨some ⟨0, 0, 0⟩, none⟩) 9 = "#16000000" ∧
    specAlphaRound 9 = 23 ∧
    "#" ++ pyFormat02X (specAlphaRound 9) ++ pyFormat02X 0 ++ pyFormat02X 0 ++ pyFormat02X 0
      = "#17000000" ∧
    get_muted_color_with_alpha (some ⟨some ⟨0, 0, 0⟩, none⟩) 9 ≠ "#17000000" := by
  refine ⟨?_, rfl, ?_, ?_⟩ <;> decide

/-! ## `RestCountryResponse.to_country_data`
From `utils/restcountries/models.py`. Python dicts preserve insertion order,
so `languages` / `currencies` are modelled as association lists;
`next(iter(d.items()))` is the head of the list and raises `StopIteration`
on an empty dict, `continents[0]` raises `IndexError` on an empty list. -/

/-- `Name` model (`name.common` / `name.official`). -/
structure RName where
  common : String
  official : String
deriving DecidableEq

/-- `Flags` model (`flags.png` / `flags.svg`). -/
structure Flags where
  png : String
  svg : String
deriving DecidableEq

/-- `Currency` model. -/
structure Currency where
  name : String
  symbol : String := ""
deriving DecidableEq

/-- `RestCountryResponse`: country payload from the RestCountries API. -/
structure RestCountryResponse where
  cca2 : String
  name : RName
  capital : List String
  continents : List String
  languages : List (String × String)
  currencies : List (String × Currency)
  flags : Flags
deriving DecidableEq

/-- `CountryData`: processed country row for database insertion. -/
structure CountryData where
  iso2 : String
  name : String
  capital : String
  continent : String
  primary_language : String
  primary_language_code : String
  primary_currency : String
  primary_currency_code : String
  flag_full_path : String
  background_hex : String
deriving DecidableEq

/-- `RestCountryResponse.to_country_data`: derive a `CountryData` record, or
raise (`IndexError` on empty `continents`, `StopIteration` on empty
`languages` / `currencies`; an empty `capital` falls back to `"None"`). -/
def to_country_data (r : RestCountryResponse) : Except String CountryData :=
  let iso2 := pyUpper r.cca2
  let capital := match r.capital with
    | [] => "None"
    | c :: _ => c
  match r.continents with
  | [] => .error "IndexError: continents is empty"
  | continent :: _ =>
    match r.languages with
    | [] => .error "StopIteration: languages is empty"
    | (lang_code, lang_name) :: _ =>
      match r.currencies with
      | [] => .error "StopIteration: currencies is empty"
      | (curr_code, curr_obj) :: _ =>
        .ok { iso2 := iso2, name := r.name.common, capital := capital,
              continent := continent,
              primary_language := lang_name,
              primary_language_code := pyUpper lang_code,
              primary_currency :=
                if curr_obj.name = "" then pyUpper curr_code else curr_obj.name,
              primary_currency_code := pyUpper curr_code,
              flag_full_path := "",
              background_hex := "#CC000000" }

/-- The concrete scenario payload of the spec (country `us`). -/
def usPayload : RestCountryResponse :=
  { cca2 := "us",
    name := { common := "United States", official := "United States of America" },
    capital := ["Washington, D.C."],
    continents := ["North America"],
    languages := [("eng", "English")],
    currencies := [("USD", { name := "United States Dollar", symbol := "$" })],
    flags := { png := "http://x/us.png", svg := "" } }

/-- C10. `to_country_data` tolerates an empty `capital` list (the record gets
the literal string `"None"`), but raises on an empty `continents` list, an
empty `languages` map or an empty `currencies` map. -/
theorem c10_to_country_data_empty_fields (r : RestCountryResponse) :
    (r.capital = [] → r.continents ≠ [] → r.languages ≠ [] → r.currencies ≠ [] →
      (to_country_data r).toOption.map CountryData.capital = some "None") ∧
    (r.continents = [] → (to_country_data r).isOk = false) ∧
    (r.languages = [] → (to_country_data r).isOk = false) ∧
    (r.currencies = [] → (to_country_data r).isOk = false) := by
  refine ⟨?_, ?_, ?_, ?_⟩
  · intro h1 h2 h3 h4
    rcases hc : r.continents with _ | ⟨cont, conts⟩
    · exact absurd hc h2
    rcases hl : r.languages with _ | ⟨⟨lc, ln⟩, ls⟩
    · exact absurd hl h3
    rcases hcur : r.currencies with _ | ⟨⟨cc, cu⟩, cs⟩
    · exact absurd hcur h4
    simp only [to_country_data, h1, hc, hl, hcur, Except.toOption, Option.map]
  · intro h
    simp [to_country_data, h, Except.isOk, Except.toBool]
  · intro h
    rcases hc : r.continents with _ | ⟨cont, conts⟩
    · simp [to_country_data, hc, Except.isOk, Except.toBool]
    · simp [to_country_data, hc, h, Except.isOk, Except.toBool]
  · intro h
    rcases hc : r.continents with _ | ⟨cont, conts⟩
    · simp [to_country_data, hc, Except.isOk, Except.toBool]
    rcases hl : r.languages with _ | ⟨⟨lc, ln⟩, ls⟩
    · simp [to_country_data, hc, hl, Except.isOk, Except.toBool]
    · simp [to_country_data, hc, hl, h, Except.isOk, Except.toBool]

/-- Witness for C10 at concrete payloads derived from the `us` scenario. -/
theorem c10_to_country_data_empty_fields_witness :
    (to_country_data { usPayload with capital := [] }).toOption.map CountryData.capital
      = some "None" ∧
    (to_country_data { usPayload with continents := [] }).isOk = false ∧
    (to_country_data { usPayload with languages := [] }).isOk = false ∧
    (to_country_data { usPayload with currencies := [] }).isOk = false :=
  ⟨(c10_to_country_data_empty_fields { usPayload with capital := [] }).1 rfl
      (by decide) (by decide) (by decide),
   (c10_to_country_data_empty_fields { usPayload with continents := [] }).2.1 rfl,
   (c10_to_country_data_empty_fields { usPayload with languages := [] }).2.2.1 rfl,
   (c10_to_country_data_empty_fields { usPayload with currencies := [] }).2.2.2 rfl⟩

/-! ## `CountriesGenerator.generate`
From `generators/manual/countries_generator.py`. The storage upload and the
signed-url/palette download are external effects; they enter as oracles:
`upload flag_url iso2` models `_upload_flag_to_storage` (its result or its
exception), `paletteOf iso2` models
`extract_palette_from_url(get_signed_url(...))`, which returns `None` on any
extraction failure. -/

/-- `CountriesGenerator.IGNORED_COUNTRIES`. -/
def IGNORED_COUNTRIES : List String := ["AQ"]

/-- `CountriesGenerator.IGNORED_CONTINENTS`. -/
def IGNORED_CONTINENTS : List String := ["Antarctica"]

/-- The skip condition of the filtering loop: uppercased `cca2` in the
ignore-list, or some continent in the ignored-continents list. -/
def isIgnoredCountry (c : RestCountryResponse) : Bool :=
  IGNORED_COUNTRIES.contains (pyUpper c.cca2) ||
    c.continents.any (fun cont => IGNORED_CONTINENTS.contains cont)

/-- The filtering phase of `generate`: keep the countries that are not
ignored, in order. -/
def filterCountries (l : List RestCountryResponse) : List RestCountryResponse :=
  l.filter (fun c => !isIgnoredCountry c)

/-- The record-derivation phase of `generate`: convert each kept country,
propagating the first raised error. -/
def generateRecords (l : List RestCountryResponse) : Except String (List CountryData) :=
  (filterCountries l).mapM to_country_data

/-- One output row of the SQL `values` list (the `row = "  (" + ... + ")"`
expression of `generate`). -/
def rowOf (c : CountryData) : String :=
  "  (" ++ String.intercalate ", "
    [format_sql_value c.iso2, format_sql_value c.name, format_sql_value c.capital,
     format_sql_value c.continent, format_sql_value c.primary_language,
     format_sql_value c.primary_language_code, format_sql_value c.primary_currency,
     format_sql_value c.primary_currency_code, format_sql_value c.flag_full_path,
     format_sql_value c.background_hex] ++ ")"

/-- The per-country body of the `generate` loop: derive the record, upload
the flag (png preferred over svg, empty url and empty result are errors),
extract the background color (never empty, see
`get_muted_color_with_alpha_ne_empty`), render the row. -/
def processCountry (upload : String → String → Except String String)
    (paletteOf : String → Option Palette) (r : RestCountryResponse) :
    Except String String :=
  match to_country_data r with
  | .error e => .error e
  | .ok c =>
    let flagUrl := if r.flags.png = "" then r.flags.svg else r.flags.png
    if flagUrl = "" then .error "Flag URL cannot be empty"
    else match upload flagUrl c.iso2 with
      | .error e => .error e
      | .ok flag =>
        if flag = "" then .error "Flag full path cannot be empty"
        else
          let hex := get_muted_color_with_alpha (paletteOf c.iso2) 80
          if hex = "" then .error "Background hex cannot be empty"
          else .ok (rowOf { c with flag_full_path := flag, background_hex := hex })

/-- Python `rows.sort()`: lexicographic sort by code points. -/
def pySortRows (rows : List String) : List String :=
  rows.mergeSort (fun a b => decide (a ≤ b))

/-- The full row pipeline of `generate`: filter, process each country in
order (the first raised error aborts the run), sort the rows. -/
def generateRows (upload : String → String → Except String String)
    (paletteOf : String → Option Palette) (l : List RestCountryResponse) :
    Except String (List String) :=
  match (filterCountries l).mapM (processCountry upload paletteOf) with
  | .error e => .error e
  | .ok rows => .ok (pySortRows rows)

lemma get_muted_color_with_alpha_ne_empty (p : Option Palette) (a : Nat) :
    get_muted_color_with_alpha p a ≠ "" := by
  cases p with
  | none =>
    show DEFAULT_COLOR ≠ ""
    decide
  | some p =>
    cases h : (match p.muted with | some s => some s | none => p.dark_muted) with
    | none =>
      simp only [get_muted_color_with_alpha, h]
      decide
    | some s =>
      simp only [get_muted_color_with_alpha, h]
      intro hcontra
      have hlen := congrArg String.length hcontra
      simp only [String.length_append] at hlen
      have h1 : ("#" : String).length = 1 := rfl
      have h0 : ("" : String).length = 0 := rfl
      rw [h1, h0] at hlen
      omega

/-- A stub upload oracle: every upload succeeds with a fixed path. -/
def upStub : String → String → Except String String := fun _ _ => .ok "flags/X.png"

/-- A stub palette oracle: extraction always fails (returns `None`). -/
def palStub : String → Option Palette := fun _ => none

/-- The `us` payload with ISO2 `"AQ"` and otherwise unchanged fields. -/
def aqPayload : RestCountryResponse := { usPayload with cca2 := "AQ" }

/-- C5. A country whose uppercased ISO2 is in the ignore-list, or whose
continents meet the ignored-continents set, is skipped by the filtering
phase: dropping all ignored countries from the input leaves the generated
SQL rows unchanged, every country with ISO2 `"AQ"` is ignored whatever its
other fields, and no ignored country survives the filter. -/
theorem c5_ignored_countries_excluded :
    (∀ c : RestCountryResponse, pyUpper c.cca2 = "AQ" → isIgnoredCountry c = true) ∧
    (∀ c : RestCountryResponse, (∃ cont ∈ c.continents, cont ∈ IGNORED_CONTINENTS) →
      isIgnoredCountry c = true) ∧
    (∀ (upload : String → String → Except String String)
        (paletteOf : String → Option Palette) (l : List RestCountryResponse),
      generateRows upload paletteOf l =
        generateRows upload paletteOf (l.filter (fun c => !isIgnoredCountry c))) ∧
    (∀ (l : List RestCountryResponse) (c : RestCountryResponse),
      c ∈ filterCountries l → isIgnoredCountry c = false) := by
  refine ⟨?_, ?_, ?_, ?_⟩
  · intro c h
    simp [isIgnoredCountry, h, IGNORED_COUNTRIES]
  · intro c ⟨cont, hmem, hign⟩
    simp only [isIgnoredCountry, Bool.or_eq_true, List.any_eq_true]
    exact Or.inr ⟨cont, hmem, by simpa using hign⟩
  · intro up pal l
    have hff : filterCountries (l.filter (fun c => !isIgnoredCountry c))
        = filterCountries l := by
      unfold filterCountries
      rw [List.filter_filter]
      simp
    unfold generateRows
    rw [hff]
  · intro l c hc
    unfold filterCountries at hc
    have := List.of_mem_filter hc
    simpa using this

/-- Witness for C5: `"AQ"` is dropped from a two-country input, `us` is not. -/
theorem c5_ignored_countries_excluded_witness :
    isIgnoredCountry aqPayload = true ∧
    generateRows upStub palStub [aqPayload, usPayload] =
      generateRows upStub palStub
        ([aqPayload, usPayload].filter (fun c => !isIgnoredCountry c)) ∧
    isIgnoredCountry usPayload = false :=
  ⟨c5_ignored_countries_excluded.1 aqPayload rfl,
   c5_ignored_countries_excluded.2.2.1 upStub palStub [aqPayload, usPayload],
   c5_ignored_countries_excluded.2.2.2 [usPayload] usPayload (by decide)⟩

/-- The record `to_country_data` derives for the `us` scenario payload. -/
def usRecord : CountryData :=
  { iso2 := "US", name := "United States", capital := "Washington, D.C.",
    continent := "North America", primary_language := "English",
    primary_language_code := "ENG", primary_currency := "United States Dollar",
    primary_currency_code := "USD", flag_full_path := "",
    background_hex := "#CC000000" }

/-- C4. The derived record takes its capital, continent, primary language
and primary currency from the first entries of the respective lists / maps
(codes uppercased, a falsy currency name falls back to the uppercased code);
in particular the `us` scenario payload yields the row
`('US', 'United States', 'Washington, D.C.', 'North America', 'English',
'ENG', 'United States Dollar', 'USD', <flag-ref>, <color>)`. -/
theorem c4_first_entries_and_us_row (r : RestCountryResponse)
    (cap cont lc ln cc : String) (cu : Currency) (caps conts : List String)
    (ls : List (String × String)) (cs : List (String × Currency))
    (hcap : r.capital = cap :: caps) (hcont : r.continents = cont :: conts)
    (hl : r.languages = (lc, ln) :: ls) (hc : r.currencies = (cc, cu) :: cs) :
    to_country_data r = .ok
      { iso2 := pyUpper r.cca2, name := r.name.common, capital := cap,
        continent := cont, primary_language := ln,
        primary_language_code := pyUpper lc,
        primary_currency := if cu.name = "" then pyUpper cc else cu.name,
        primary_currency_code := pyUpper cc,
        flag_full_path := "", background_hex := "#CC000000" } ∧
    (∀ (upload : String → String → Except String String)
        (paletteOf : String → Option Palette) (f : String),
      upload "http://x/us.png" "US" = .ok f → f ≠ "" →
      processCountry upload paletteOf usPayload = .ok
        ("  (" ++ String.intercalate ", "
          [format_sql_value "US", format_sql_value "United States",
           format_sql_value "Washington, D.C.", format_sql_value "North America",
           format_sql_value "English", format_sql_value "ENG",
           format_sql_value "United States Dollar", format_sql_value "USD",
           format_sql_value f,
           format_sql_value (get_muted_color_with_alpha (paletteOf "US") 80)]
          ++ ")")) := by
  constructor
  · simp [to_country_data, hcap, hcont, hl, hc]
  · intro up pal f hup hf
    have hto : to_country_data usPayload = .ok usRecord := rfl
    unfold processCountry
    rw [hto]
    have hpng : usPayload.flags.png = "http://x/us.png" := rfl
    have hiso : usRecord.iso2 = "US" := rfl
    simp only [hpng, hiso]
    simp only [if_neg (show ¬ ("http://x/us.png" : String) = "" from by decide)]
    rw [hup]
    dsimp only
    rw [if_neg hf]
    rw [if_neg (get_muted_color_with_alpha_ne_empty (pal "US") 80)]
    rfl

/-- Witness for C4: the `us` scenario payload with a stub upload oracle. -/
theorem c4_first_entries_and_us_row_witness :
    to_country_data usPayload = .ok
      { iso2 := pyUpper usPayload.cca2, name := usPayload.name.common,
        capital := "Washington, D.C.", continent := "North America",
        primary_language := "English", primary_language_code := pyUpper "eng",
        primary_currency :=
          if ({ name := "United States Dollar", symbol := "$" } : Currency).name = ""
          then pyUpper "USD" else "United States Dollar",
        primary_currency_code := pyUpper "USD",
        flag_full_path := "", background_hex := "#CC000000" } ∧
    processCountry upStub palStub usPayload = .ok
      ("  (" ++ String.intercalate ", "
        [format_sql_value "US", format_sql_value "United States",
         format_sql_value "Washington, D.C.", format_sql_value "North America",
         format_sql_value "English", format_sql_value "ENG",
         format_sql_value "United States Dollar", format_sql_value "USD",
         format_sql_value "flags/X.png",
         format_sql_value (get_muted_color_with_alpha (palStub "US") 80)]
        ++ ")") :=
  have h := c4_first_entries_and_us_row usPayload "Washington, D.C." "North America"
    "eng" "English" "USD" { name := "United States Dollar", symbol := "$" }
    [] [] [] [] rfl rfl rfl rfl
  ⟨h.1, h.2 upStub palStub "flags/X.png" rfl (by decide)⟩

/-- Exactly two characters, all uppercase ASCII letters. -/
def isTwoUpperLetters (s : String) : Bool :=
  (s.length == 2) && s.data.all (fun c => decide (65 ≤ c.toNat ∧ c.toNat ≤ 90))

lemma to_country_data_iso2 (r : RestCountryResponse) (c : CountryData)
    (h : to_country_data r = .ok c) : c.iso2 = pyUpper r.cca2 := by
  unfold to_country_data at h
  rcases hc : r.continents with _ | ⟨cont, conts⟩ <;> rw [hc] at h
  · exact Except.noConfusion h
  rcases hl : r.languages with _ | ⟨⟨lc, ln⟩, ls⟩ <;> rw [hl] at h
  · exact Except.noConfusion h
  rcases hcur : r.currencies with _ | ⟨⟨cc, cu⟩, cs⟩ <;> rw [hcur] at h
  · exact Except.noConfusion h
  injection h with h2
  rw [← h2]

lemma mapM_to_country_data_iso2 (l : List RestCountryResponse)
    (recs : List CountryData) (h : l.mapM to_country_data = .ok recs) :
    recs.map CountryData.iso2 = l.map (fun r => pyUpper r.cca2) := by
  induction l generalizing recs with
  | nil =>
    rw [List.mapM_nil] at h
    injection h with h2
    rw [← h2]
    rfl
  | cons x xs ih =>
    rw [List.mapM_cons] at h
    cases hx : to_country_data x with
    | error e =>
      rw [hx] at h
      exact Except.noConfusion h
    | ok c =>
      rw [hx] at h
      cases hxs : xs.mapM to_country_data with
      | error e =>
        rw [hxs] at h
        exact Except.noConfusion h
      | ok cs =>
        rw [hxs] at h
        injection h with h2
        rw [← h2, List.map_cons, List.map_cons,
          to_country_data_iso2 x c hx, ih cs hxs]

/-- C3 (amended). Every derived record's ISO2 is exactly the uppercased
`cca2` of its payload; hence when every fetched payload's uppercased `cca2`
is a two-uppercase-letter string and those uppercased codes are pairwise
distinct, the derived records all carry two-uppercase-letter ISO2 codes that
are pairwise distinct across the output set. -/
theorem c3_iso2_two_upper_unique (l : List RestCountryResponse)
    (recs : List CountryData) (h : generateRecords l = .ok recs)
    (h2 : ∀ r ∈ l, isTwoUpperLetters (pyUpper r.cca2) = true)
    (h3 : (l.map (fun r => pyUpper r.cca2)).Pairwise (· ≠ ·)) :
    recs.map CountryData.iso2 = (filterCountries l).map (fun r => pyUpper r.cca2) ∧
    (∀ c ∈ recs, isTwoUpperLetters c.iso2 = true) ∧
    (recs.map CountryData.iso2).Pairwise (· ≠ ·) := by
  unfold generateRecords at h
  have hmap := mapM_to_country_data_iso2 _ _ h
  refine ⟨hmap, ?_, ?_⟩
  · intro c hcrecs
    have hmem : c.iso2 ∈ recs.map CountryData.iso2 := List.mem_map_of_mem _ hcrecs
    rw [hmap] at hmem
    obtain ⟨r, hr, hre⟩ := List.mem_map.1 hmem
    have hrl : r ∈ l := List.mem_of_mem_filter hr
    rw [← hre]
    exact h2 r hrl
  · rw [hmap]
    have hsub : List.Sublist (filterCountries l) l := List.filter_sublist l
    exact h3.sublist (hsub.map (fun r => pyUpper r.cca2))

/-- Witness for C3: the singleton `us` input. -/
theorem c3_iso2_two_upper_unique_witness :
    [usRecord].map CountryData.iso2 =
      (filterCountries [usPayload]).map (fun r => pyUpper r.cca2) ∧
    (∀ c ∈ [usRecord], isTwoUpperLetters c.iso2 = true) ∧
    ([usRecord].map CountryData.iso2).Pairwise (· ≠ ·) :=
  c3_iso2_two_upper_unique [usPayload] [usRecord] rfl (by decide) (by decide)

/-- The `us` payload with the three-letter code `usa`. -/
def usaPayload : RestCountryResponse := { usPayload with cca2 := "usa" }

/-- The `us` payload with `cca2` already uppercased, a case-duplicate. -/
def usPayloadDup : RestCountryResponse := { usPayload with cca2 := "US" }

/-- Counterexample for C3 as stated: the generator never validates length or
uniqueness, so payload `cca2 = "usa"` yields the three-letter ISO2 `"USA"`,
and the pair `cca2 = "us"` / `cca2 = "US"` yields two records with the same
ISO2 `"US"`. -/
theorem c3_counterexample :
    (generateRecords [usaPayload]).toOption.map (fun recs => recs.map CountryData.iso2)
      = some ["USA"] ∧
    isTwoUpperLetters "USA" = false ∧
    (generateRecords [usPayload, usPayloadDup]).toOption.map
        (fun recs => recs.map CountryData.iso2)
      = some ["US", "US"] ∧
    ¬ (["US", "US"].Pairwise (fun a b : String => a ≠ b)) := by
  refine ⟨?_, ?_, ?_, ?_⟩ <;> decide

/-! ## Bulk insert with one-by-one fallback
From `generators/llm/vibes_country_generator.py` (and the identical block in
`country_podcast_generator.py`): `insert_many` inside `try`; on any exception
a loop runs `insert` per record, `continue`s when the lowercased error text
contains `"duplicate"` or `"unique"`, re-raises otherwise. The database is an
oracle: `bulk` is the recorded outcome of `insert_many`, `ins` the recorded
outcome of `insert` per record. -/

/-- Substring containment on character lists. -/
def listContainsSub (needle hay : List Char) : Bool :=
  hay.tails.any (fun t => needle.isPrefixOf t)

/-- Python `needle in hay` for strings. -/
def pyContains (hay needle : String) : Bool := listContainsSub needle.data hay.data

/-- Outcome of one `insert` call. -/
inductive InsertOutcome where
  | ok
  | fail (msg : String)

/-- The duplicate-key signature test:
`"duplicate" in str(e).lower() or "unique" in str(e).lower()`. -/
def isDuplicateKeyError (msg : String) : Bool :=
  pyContains (pyLower msg) "duplicate" || pyContains (pyLower msg) "unique"

/-- The one-by-one fallback loop: count successful inserts, skip inserts
failing with a duplicate-key signature, re-raise any other failure. -/
def fallback_inserts {α : Type} (ins : α → InsertOutcome) : List α → Except String Nat
  | [] => .ok 0
  | r :: rest =>
    match ins r with
    | .ok =>
      match fallback_inserts ins rest with
      | .ok n => .ok (n + 1)
      | .error e => .error e
    | .fail e => if isDuplicateKeyError e then fallback_inserts ins rest else .error e

/-- The whole insert step: bulk insert, falling back to `fallback_inserts`
when the bulk insert raised. -/
def insert_records {α : Type} (bulk : Except String Nat) (ins : α → InsertOutcome)
    (recs : List α) : Except String Nat :=
  match bulk with
  | .ok n => .ok n
  | .error _ => fallback_inserts ins recs

/-- C7. A failed bulk insert always falls back to the one-by-one loop (a
successful one never does); during the fallback a record whose insert fails
with a duplicate-key signature is swallowed and iteration continues with the
remaining records, while a failure without that signature is re-raised and
aborts the loop. -/
theorem c7_bulk_insert_fallback {α : Type} (ins : α → InsertOutcome) (r : α)
    (m e : String) (rest recs : List α) (n : Nat) :
    insert_records (.ok n) ins recs = .ok n ∧
    insert_records (.error e) ins recs = fallback_inserts ins recs ∧
    (ins r = .fail m → isDuplicateKeyError m = true →
      fallback_inserts ins (r :: rest) = fallback_inserts ins rest) ∧
    (ins r = .fail m → isDuplicateKeyError m = false →
      fallback_inserts ins (r :: rest) = .error m) := by
  refine ⟨rfl, rfl, ?_, ?_⟩
  · intro h1 h2
    simp [fallback_inserts, h1, h2]
  · intro h1 h2
    simp [fallback_inserts, h1, h2]

/-- Insert oracle for the C7 witness: record 0 hits a duplicate-key error,
record 1 succeeds, record 2 fails with an unrelated error. -/
def insStub : Nat → InsertOutcome := fun k =>
  if k = 0 then .fail "duplicate key value violates unique constraint"
  else if k = 1 then .ok
  else .fail "connection reset"

/-- Witness for C7 on the `insStub` oracle. -/
theorem c7_bulk_insert_fallback_witness :
    insert_records (.ok 5) insStub [0, 1, 2] = .ok 5 ∧
    insert_records (.error "bulk failed") insStub [0, 1, 2]
      = fallback_inserts insStub [0, 1, 2] ∧
    fallback_inserts insStub (0 :: [1]) = fallback_inserts insStub [1] ∧
    fallback_inserts insStub (2 :: [1]) = .error "connection reset" :=
  ⟨(c7_bulk_insert_fallback insStub 0 "x" "bulk failed" [1] [0, 1, 2] 5).1,
   (c7_bulk_insert_fallback insStub 0 "x" "bulk failed" [1] [0, 1, 2] 5).2.1,
   (c7_bulk_insert_fallback insStub 0
      "duplicate key value violates unique constraint" "bulk failed" [1] [0, 1, 2] 5).2.2.1
      rfl (by decide),
   (c7_bulk_insert_fallback insStub 2
      "connection reset" "bulk failed" [1] [0, 1, 2] 5).2.2.2 rfl (by decide)⟩

/-! ## `PodcastAudioGenerator` quota flag
From `generators/llm/podcast_audio_generator.py`. `_process_country` is
sequentialized: a unit of work receives the shared flag value it observes at
its quota check and returns the value the flag has after the unit (the flag
is only ever written through `_set_quota_exceeded`, which sets it to `True`
under a lock). The unit's environment records the two storage existence
probes and the outcome of the remote pipeline (script download, Gemini TTS,
temp write, storage upload), classified by the exception type the Python
`except` clauses distinguish. The emitted `RemoteCall` trace marks remote
TTS work (`tts`) and a completed upload (`upload`). -/

/-- Outcome of the remote download/TTS/upload pipeline of one unit. -/
inductive TtsOutcome where
  | ok
  | runtimeError (msg : String)
  | otherError (msg : String)
deriving DecidableEq

/-- Environment of one per-country unit of work. -/
structure AudioEnv where
  audioExists : Bool
  scriptExists : Bool
  pipeline : TtsOutcome
deriving DecidableEq

/-- The `(success, skipped)` part of `_process_country`'s result tuple. -/
structure UnitResult where
  success : Bool
  skipped : Bool
deriving DecidableEq

/-- Remote calls the claim talks about. -/
inductive RemoteCall where
  | tts
  | upload
deriving DecidableEq

/-- The quota signature test: `"quota" in str(e).lower() or "limit" in
str(e).lower()`. -/
def isQuotaError (msg : String) : Bool :=
  pyContains (pyLower msg) "quota" || pyContains (pyLower msg) "limit"

/-- `PodcastAudioGenerator._process_country`, sequentialized on the shared
flag: skip when the audio already exists, when the script is missing, or when
the flag is set; otherwise run the remote pipeline; only a `RuntimeError`
whose lowercased message contains `"quota"` or `"limit"` sets the flag. -/
def process_country (quotaFlag : Bool) (env : AudioEnv) :
    UnitResult × Bool × List RemoteCall :=
  if env.audioExists then (⟨false, true⟩, quotaFlag, [])
  else if !env.scriptExists then (⟨false, true⟩, quotaFlag, [])
  else if quotaFlag then (⟨false, true⟩, quotaFlag, [])
  else
    match env.pipeline with
    | .ok => (⟨true, false⟩, quotaFlag, [.tts, .upload])
    | .runtimeError m =>
      if isQuotaError m then (⟨false, false⟩, true, [.tts])
      else (⟨false, false⟩, quotaFlag, [.tts])
    | .otherError _ => (⟨false, false⟩, quotaFlag, [.tts])

/-- A run: the units in the order their quota checks are serialized by the
lock, threading the shared flag; returns the final flag value. -/
def run_units (flag : Bool) : List AudioEnv → Bool
  | [] => flag
  | e :: rest => run_units (process_country flag e).2.1 rest

/-- C8 (amended). Once the shared flag is set, every unit that subsequently
runs returns as skipped, issues no remote TTS or upload call, and leaves the
flag set (so the flag is never cleared within a run); starting from a clear
flag, a unit sets it exactly when it reaches the pipeline and observes a
`RuntimeError` whose message carries the quota/rate-limit signature. -/
theorem c8_quota_flag :
    (∀ env : AudioEnv, process_country true env = (⟨false, true⟩, true, [])) ∧
    (∀ env : AudioEnv, (process_country false env).2.1 =
      (!env.audioExists && env.scriptExists &&
        match env.pipeline with
        | .runtimeError m => isQuotaError m
        | _ => false)) ∧
    (∀ envs : List AudioEnv, run_units true envs = true) := by
  have h1 : ∀ env : AudioEnv, process_country true env = (⟨false, true⟩, true, []) := by
    intro ⟨ae, se, p⟩
    cases ae <;> cases se <;> simp [process_country]
  refine ⟨h1, ?_, ?_⟩
  · intro ⟨ae, se, p⟩
    cases ae <;> cases se <;> cases p <;>
      (simp [process_country]; try (split <;> simp_all))
  · intro envs
    induction envs with
    | nil => rfl
    | cons e rest ih =>
      show run_units (process_country true e).2.1 rest = true
      rw [h1 e]
      exact ih

/-- Counterexample for C8 as stated: a worker whose pipeline fails with a
non-`RuntimeError` exception carrying the quota signature (for instance the
storage client raising plain `Exception`) observes the signature in the error
message, yet the flag is not set. -/
theorem c8_counterexample :
    isQuotaError "quota exceeded" = true ∧
    (process_country false ⟨false, true, .otherError "quota exceeded"⟩).2.1 = false := by
  constructor <;> decide

/-! ## `BaseGeminiClient.convert_to_wav` / `_parse_audio_mime_type`
From `utils/ai/gemini/base_gemini_client.py`. Byte strings are lists of byte
values. `struct.pack` checks that each `I` value fits an unsigned 32-bit
integer and each `H` an unsigned 16-bit integer and raises `struct.error`
otherwise, so the conversion returns `Except`. Python string primitives used
by the parser (`split(";")`, `strip()`, `startswith`, slicing, `int()`) are
embedded as structural functions on character lists; Python `int()` accepting
underscores between digits or non-ASCII digits is not modelled (MIME
parameters are plain ASCII digit strings). -/

/-- Python `s.split(sep)` for a one-character separator. -/
def splitOnChar (sep : Char) : List Char → List (List Char)
  | [] => [[]]
  | c :: rest =>
    match splitOnChar sep rest with
    | [] => [[c]]
    | cur :: done =>
      if c = sep then [] :: cur :: done else (c :: cur) :: done

/-- Python `s.strip()` (ASCII whitespace). -/
def pyStrip (s : String) : String :=
  ⟨((s.data.dropWhile Char.isWhitespace).reverse.dropWhile Char.isWhitespace).reverse⟩

/-- Python `s.startswith(pre)`. -/
def pyStartsWith (s pre : String) : Bool := pre.data.isPrefixOf s.data

/-- Python slicing `s[n:]`. -/
def pyDrop (s : String) (n : Nat) : String := ⟨s.data.drop n⟩

/-- Decimal digits to a number (the digits are already validated). -/
def digitsToNat (ds : List Char) : Nat :=
  ds.foldl (fun acc c => acc * 10 + (c.toNat - 48)) 0

/-- Python `int(s)`: strip whitespace, optional sign, one or more ASCII
digits; anything else raises `ValueError` (`none`). -/
def pyInt (s : String) : Option Int :=
  match (pyStrip s).data with
  | '+' :: ds =>
    if !ds.isEmpty && ds.all Char.isDigit then some (digitsToNat ds : Int) else none
  | '-' :: ds =>
    if !ds.isEmpty && ds.all Char.isDigit then some (-(digitsToNat ds : Int)) else none
  | ds =>
    if !ds.isEmpty && ds.all Char.isDigit then some (digitsToNat ds : Int) else none

/-- One iteration of the parameter loop of `_parse_audio_mime_type`, acting
on the `(bits_per_sample, rate)` accumulator. `param.split("=", 1)[1]` is
`param[5:]` because the matched prefix `"rate="` holds the first `=`, and
`param.split("L", 1)[1]` is `param[7:]` because the matched (case-sensitive)
prefix `"audio/L"` holds the first `L`. -/
def mimeStep (acc : Int × Int) (part : String) : Int × Int :=
  let param := pyStrip part
  if pyStartsWith (pyLower param) "rate=" then
    match pyInt (pyDrop param 5) with
    | some r => (acc.1, r)
    | none => acc
  else if pyStartsWith param "audio/L" then
    match pyInt (pyDrop param 7) with
    | some b => (b, acc.2)
    | none => acc
  else acc

/-- `mime_type.split(";")`. -/
def mimeParts (mime_type : String) : List String :=
  (splitOnChar (Char.ofNat 59) mime_type.data).map (fun cs => String.mk cs)

/-- `BaseGeminiClient._parse_audio_mime_type`: `(bits_per_sample, rate)`,
defaulting to `(16, 24000)`. -/
def parse_audio_mime_type (mime_type : String) : Int × Int :=
  (mimeParts mime_type).foldl mimeStep (16, 24000)

/-- Little-endian bytes of an unsigned 16-bit value. -/
def u16leBytes (n : Nat) : List Nat := [n % 256, n / 256 % 256]

/-- Little-endian bytes of an unsigned 32-bit value. -/
def u32leBytes (n : Nat) : List Nat :=
  [n % 256, n / 256 % 256, n / 65536 % 256, n / 16777216 % 256]

/-- `struct.pack "<H"`: range-checked unsigned 16-bit little-endian. -/
def packU16 (v : Int) : Except String (List Nat) :=
  if 0 ≤ v ∧ v < 65536 then .ok (u16leBytes v.toNat)
  else .error "struct.error: argument out of range"

/-- `struct.pack "<I"`: range-checked unsigned 32-bit little-endian. -/
def packU32 (v : Int) : Except String (List Nat) :=
  if 0 ≤ v ∧ v < 4294967296 then .ok (u32leBytes v.toNat)
  else .error "struct.error: argument out of range"

/-- `BaseGeminiClient.convert_to_wav`: 44-byte RIFF/WAVE header followed by
the payload. The constant fields (`Subchunk1Size = 16`, `AudioFormat = 1`,
`NumChannels = 1`) always pass the `struct.pack` range check and appear as
their byte lists. -/
def convert_to_wav (audio_data : List Nat) (mime_type : String) :
    Except String (List Nat) :=
  let ps := parse_audio_mime_type mime_type
  let bits_per_sample := ps.1
  let rate := ps.2
  let num_channels : Int := 1
  let data_size : Nat := audio_data.length
  let bytes_per_sample := Int.fdiv bits_per_sample 8
  let block_align := num_channels * bytes_per_sample
  let byte_rate := rate * block_align
  let chunk_size : Int := 36 + (data_size : Int)
  (packU32 chunk_size).bind fun cs =>
  (packU32 rate).bind fun sr =>
  (packU32 byte_rate).bind fun br =>
  (packU16 block_align).bind fun ba =>
  (packU16 bits_per_sample).bind fun bps =>
  (packU32 (data_size : Int)).bind fun ds =>
  .ok ([82, 73, 70, 70] ++ cs ++ [87, 65, 86, 69] ++ [102, 109, 116, 32] ++
    [16, 0, 0, 0] ++ [1, 0] ++ [1, 0] ++ sr ++ br ++ ba ++ bps ++
    [100, 97, 116, 97] ++ ds ++ audio_data)

/-- A MIME part that overwrites the rate accumulator. -/
def setsRateParam (part : String) : Bool :=
  pyStartsWith (pyLower (pyStrip part)) "rate=" && (pyInt (pyDrop (pyStrip part) 5)).isSome

/-- A MIME part that overwrites the bits-per-sample accumulator. -/
def setsBitsParam (part : String) : Bool :=
  (!pyStartsWith (pyLower (pyStrip part)) "rate=") &&
    pyStartsWith (pyStrip part) "audio/L" && (pyInt (pyDrop (pyStrip part) 7)).isSome

lemma packU16_okNat (n : Nat) (h : n < 65536) :
    packU16 (n : Int) = .ok (u16leBytes n) := by
  rw [packU16, if_pos ⟨Int.natCast_nonneg n, by exact_mod_cast h⟩, Int.toNat_natCast]

lemma packU32_okNat (n : Nat) (h : n < 4294967296) :
    packU32 (n : Int) = .ok (u32leBytes n) := by
  rw [packU32, if_pos ⟨Int.natCast_nonneg n, by exact_mod_cast h⟩, Int.toNat_natCast]

lemma mimeStep_fst (acc : Int × Int) (part : String)
    (h : setsBitsParam part = false) : (mimeStep acc part).1 = acc.1 := by
  cases hb1 : pyStartsWith (pyLower (pyStrip part)) "rate=" with
  | true =>
    simp only [mimeStep, hb1, if_true]
    cases pyInt (pyDrop (pyStrip part) 5) <;> simp
  | false =>
    cases hb2 : pyStartsWith (pyStrip part) "audio/L" with
    | false => simp [mimeStep, hb1, hb2]
    | true =>
      have hnone : pyInt (pyDrop (pyStrip part) 7) = none := by
        cases hpi : pyInt (pyDrop (pyStrip part) 7) with
        | none => rfl
        | some b =>
          rw [setsBitsParam, hb1, hb2, hpi] at h
          simp at h
      simp [mimeStep, hb1, hb2, hnone]

lemma mimeStep_snd (acc : Int × Int) (part : String)
    (h : setsRateParam part = false) : (mimeStep acc part).2 = acc.2 := by
  cases hb1 : pyStartsWith (pyLower (pyStrip part)) "rate=" with
  | true =>
    have hnone : pyInt (pyDrop (pyStrip part) 5) = none := by
      cases hpi : pyInt (pyDrop (pyStrip part) 5) with
      | none => rfl
      | some r =>
        rw [setsRateParam, hb1, hpi] at h
        simp at h
    simp [mimeStep, hb1, hnone]
  | false =>
    cases hb2 : pyStartsWith (pyStrip part) "audio/L" with
    | false => simp [mimeStep, hb1, hb2]
    | true =>
      simp only [mimeStep, hb1, Bool.false_eq_true, if_false, hb2, if_true]
      cases pyInt (pyDrop (pyStrip part) 7) <;> simp

lemma foldl_mimeStep_fst (parts : List String) (acc : Int × Int)
    (h : parts.all (fun p => !setsBitsParam p) = true) :
    (parts.foldl mimeStep acc).1 = acc.1 := by
  induction parts generalizing acc with
  | nil => rfl
  | cons p ps ih =>
    rw [List.all_cons] at h
    obtain ⟨h1, h2⟩ := (Bool.and_eq_true _ _).mp h
    rw [List.foldl_cons, ih (mimeStep acc p) h2]
    exact mimeStep_fst acc p (by simpa using h1)

lemma foldl_mimeStep_snd (parts : List String) (acc : Int × Int)
    (h : parts.all (fun p => !setsRateParam p) = true) :
    (parts.foldl mimeStep acc).2 = acc.2 := by
  induction parts generalizing acc with
  | nil => rfl
  | cons p ps ih =>
    rw [List.all_cons] at h
    obtain ⟨h1, h2⟩ := (Bool.and_eq_true _ _).mp h
    rw [List.foldl_cons, ih (mimeStep acc p) h2]
    exact mimeStep_snd acc p (by simpa using h1)

set_option maxRecDepth 2000 in
/-- C9 (amended). When the parsed parameters and the payload fit the packed
ranges, `convert_to_wav` returns a 44-byte header followed by the payload
unchanged: RIFF chunk size `36 + len`, PCM format tag 1, channel count 1,
the parsed sample rate and bits-per-sample, block align `bits / 8` and byte
rate `rate * (bits / 8)` (bytes-per-sample is the integer division
`bits // 8`, computed before the multiplication), data-chunk size `len`;
the parameters default to 16 bits and rate 24000 when no `;`-part sets them
(absent or unparseable). -/
theorem c9_convert_to_wav_header (audio : List Nat) (mime : String)
    (bitsN rateN : Nat)
    (hp : parse_audio_mime_type mime = ((bitsN : Int), (rateN : Int)))
    (hb : bitsN < 65536) (hr : rateN < 4294967296)
    (hbr : rateN * (bitsN / 8) < 4294967296)
    (hlen : audio.length < 4294967260) :
    convert_to_wav audio mime = .ok (
      [82, 73, 70, 70] ++ u32leBytes (36 + audio.length) ++
      [87, 65, 86, 69] ++ [102, 109, 116, 32] ++ [16, 0, 0, 0] ++ [1, 0] ++ [1, 0] ++
      u32leBytes rateN ++ u32leBytes (rateN * (bitsN / 8)) ++
      u16leBytes (bitsN / 8) ++ u16leBytes bitsN ++
      [100, 97, 116, 97] ++ u32leBytes audio.length ++ audio) ∧
    ([82, 73, 70, 70] ++ u32leBytes (36 + audio.length) ++
      [87, 65, 86, 69] ++ [102, 109, 116, 32] ++ [16, 0, 0, 0] ++ [1, 0] ++ [1, 0] ++
      u32leBytes rateN ++ u32leBytes (rateN * (bitsN / 8)) ++
      u16leBytes (bitsN / 8) ++ u16leBytes bitsN ++
      [100, 97, 116, 97] ++ u32leBytes audio.length).length = 44 ∧
    ((mimeParts mime).all (fun p => !setsBitsParam p) = true → bitsN = 16) ∧
    ((mimeParts mime).all (fun p => !setsRateParam p) = true → rateN = 24000) := by
  refine ⟨?_, ?_, ?_, ?_⟩
  · have hfdiv : Int.fdiv (bitsN : Int) 8 = ((bitsN / 8 : Nat) : Int) := by
      rw [Int.fdiv_eq_tdiv (Int.natCast_nonneg bitsN) (by norm_num)]
      norm_cast
    have hmul : (rateN : Int) * ((1 : Int) * ((bitsN / 8 : Nat) : Int))
        = ((rateN * (bitsN / 8) : Nat) : Int) := by push_cast; ring
    have hadd : (36 : Int) + (audio.length : Int)
        = ((36 + audio.length : Nat) : Int) := by push_cast; ring
    unfold convert_to_wav
    rw [hp]
    dsimp only
    rw [hfdiv, hmul, hadd, one_mul]
    rw [packU32_okNat (36 + audio.length) (by omega),
      packU32_okNat rateN hr,
      packU32_okNat (rateN * (bitsN / 8)) hbr,
      packU16_okNat (bitsN / 8) (by omega),
      packU16_okNat bitsN hb,
      packU32_okNat audio.length (by omega)]
    rfl
  · simp [u32leBytes, u16leBytes]
  · intro hall
    have h16 := foldl_mimeStep_fst (mimeParts mime) (16, 24000) hall
    rw [show (mimeParts mime).foldl mimeStep (16, 24000) = parse_audio_mime_type mime
        from rfl, hp] at h16
    have h16b : (bitsN : Int) = 16 := by simpa using h16
    exact_mod_cast h16b
  · intro hall
    have h24 := foldl_mimeStep_snd (mimeParts mime) (16, 24000) hall
    rw [show (mimeParts mime).foldl mimeStep (16, 24000) = parse_audio_mime_type mime
        from rfl, hp] at h24
    have h24b : (rateN : Int) = 24000 := by simpa using h24
    exact_mod_cast h24b

/-- Witness for C9: two payload bytes with MIME `"audio/L16;rate=24000"`. -/
theorem c9_convert_to_wav_header_witness :
    convert_to_wav [7, 8] "audio/L16;rate=24000" = .ok (
      [82, 73, 70, 70] ++ u32leBytes (36 + ([7, 8] : List Nat).length) ++
      [87, 65, 86, 69] ++ [102, 109, 116, 32] ++ [16, 0, 0, 0] ++ [1, 0] ++ [1, 0] ++
      u32leBytes 24000 ++ u32leBytes (24000 * (16 / 8)) ++
      u16leBytes (16 / 8) ++ u16leBytes 16 ++
      [100, 97, 116, 97] ++ u32leBytes ([7, 8] : List Nat).length ++ [7, 8]) :=
  (c9_convert_to_wav_header [7, 8] "audio/L16;rate=24000" 16 24000
    (by decide) (by decide) (by decide) (by decide) (by decide)).1

/-- Counterexample for C9 as stated: for `"audio/L12"` (bits 12, default rate
24000) the code computes the byte rate as `rate * (bits // 8) = 24000`
(header bytes 28..31 are little-endian 24000), while the claim's formula
`sample_rate * bits_per_sample / 8 = 36000` prescribes different bytes. -/
theorem c9_counterexample :
    parse_audio_mime_type "audio/L12" = (12, 24000) ∧
    (convert_to_wav [] "audio/L12").toOption.map (fun bs => (bs.drop 28).take 4)
      = some [192, 93, 0, 0] ∧
    u32leBytes 24000 = [192, 93, 0, 0] ∧
    24000 * 12 / 8 = 36000 ∧
    u32leBytes (24000 * 12 / 8) = [160, 140, 0, 0] ∧
    ([192, 93, 0, 0] : List Nat) ≠ [160, 140, 0, 0] := by
  refine ⟨?_, ?_, ?_, ?_, ?_, ?_⟩ <;> decide

/-! ## `VibeCountryAssignmentClient.parse_response`
From `utils/ai/openai/vibe_country_assignment.py`; the shared `_parse_json`
(`utils/openai/base_client.py`) is `json.loads`, so the raw LLM string is
modelled by the JSON value it parses to (a string that is not valid JSON
raises before the shape analysis and satisfies the claim trivially). Python
dicts are insertion-ordered association lists with unique keys; `key in d` /
`d[key]` are lookups. JSON numbers are embedded as integers (no float takes
part in any shape decision). `str(x)` is rendered exactly for scalars; the
placeholder rendering of nested lists/dicts only affects the text of
produced titles, never success or failure. `for x in v` iterates a list's
elements, a string's characters, a dict's keys, and raises `TypeError`
otherwise. -/

/-- Parsed JSON values. -/
inductive Json where
  | null
  | bool (b : Bool)
  | num (n : Int)
  | str (s : String)
  | arr (elts : List Json)
  | obj (fields : List (String × Json))

/-- Python `key in dict`. -/
def jsonHasKey (fields : List (String × Json)) (k : String) : Bool :=
  (fields.lookup k).isSome

/-- Python truthiness of a JSON value. -/
def pyTruthy : Json → Bool
  | .null => false
  | .bool b => b
  | .num n => n != 0
  | .str s => !s.isEmpty
  | .arr xs => !xs.isEmpty
  | .obj fs => !fs.isEmpty

/-- Python `str(x)` of a JSON value (scalars rendered exactly). -/
def jsonToPyStr : Json → String
  | .str s => s
  | .num n => toString n
  | .bool true => "True"
  | .bool false => "False"
  | .null => "None"
  | .arr _ => "<list>"
  | .obj _ => "<dict>"

/-- Python iteration over a JSON value: `none` models `TypeError`. -/
def iterElems : Json → Option (List Json)
  | .arr xs => some xs
  | .str s => some (s.data.map (fun c => Json.str ⟨[c]⟩))
  | .obj fs => some (fs.map (fun kv => Json.str kv.1))
  | _ => none

/-- `VibeCountryAssignment` response record. -/
structure VibeCountryAssignment where
  country_iso2 : String
  vibe_titles : List String
deriving DecidableEq

/-- The per-assignment validation of the `parse_response` loop body: the
element must be a dict, `country_iso2` truthy, `vibe_titles` (default `[]`)
a list; the ISO2 is uppercased, titles pass through `str`. -/
def parseAssignment (j : Json) : Except String VibeCountryAssignment :=
  match j with
  | .obj fs =>
    let ciso := (fs.lookup "country_iso2").getD Json.null
    let vt := (fs.lookup "vibe_titles").getD (Json.arr [])
    if !pyTruthy ciso then .error "Assignment missing country_iso2"
    else
      match vt with
      | .arr ts => .ok ⟨pyUpper (jsonToPyStr ciso), ts.map jsonToPyStr⟩
      | _ => .error "Assignment vibe_titles must be a list"
  | _ => .error "Invalid assignment format"

/-- `VibeCountryAssignmentClient.parse_response` on the parsed JSON value:
a bare list is taken as the assignments, a dict is probed for `"data"` and
then `"assignments"` (in that order), anything else raises
`Unexpected JSON structure`; the chosen value is then iterated and each
element validated. -/
def parse_response (parsed : Json) : Except String (List VibeCountryAssignment) :=
  match parsed with
  | .arr xs => xs.mapM parseAssignment
  | .obj fs =>
    if jsonHasKey fs "data" then
      match iterElems ((fs.lookup "data").getD Json.null) with
      | some xs => xs.mapM parseAssignment
      | none => .error "TypeError: object is not iterable"
    else if jsonHasKey fs "assignments" then
      match iterElems ((fs.lookup "assignments").getD Json.null) with
      | some xs => xs.mapM parseAssignment
      | none => .error "TypeError: object is not iterable"
    else .error "Unexpected JSON structure"
  | _ => .error "Unexpected JSON structure"

/-- The top-level shapes `parse_response` accepts (the amended claim). -/
def acceptedTopLevelShape (j : Json) : Bool :=
  match j with
  | .arr _ => true
  | .obj fs => jsonHasKey fs "data" || jsonHasKey fs "assignments"
  | _ => false

/-- The top-level shape the claim as stated demands: a single JSON object
whose one key is `"assignments"` holding an array. -/
def specAssignmentsShape (j : Json) : Bool :=
  match j with
  | .obj [(k, .arr _)] => k == "assignments"
  | _ => false

/-- C1 (amended). Parsing succeeds only when the parsed response is a bare
JSON array, an object containing the key `"data"`, or an object containing
the key `"assignments"` (probed in that order); every other top-level shape
raises a hard parse error. -/
theorem c1_parse_response_accepts_shapes (j : Json)
    (h : (parse_response j).isOk = true) : acceptedTopLevelShape j = true := by
  cases j with
  | arr xs => rfl
  | obj fs =>
    by_cases hd : jsonHasKey fs "data"
    · simp [acceptedTopLevelShape, hd]
    · by_cases ha : jsonHasKey fs "assignments"
      · simp [acceptedTopLevelShape, hd, ha]
      · rw [parse_response] at h
        rw [if_neg (by simpa using hd), if_neg (by simpa using ha)] at h
        simp [Except.isOk, Except.toBool] at h
  | null => simp [parse_response, Except.isOk, Except.toBool] at h
  | bool b => simp [parse_response, Except.isOk, Except.toBool] at h
  | num n => simp [parse_response, Except.isOk, Except.toBool] at h
  | str s => simp [parse_response, Except.isOk, Except.toBool] at h

/-- Witness for C1: the canonical `assignments` object parses and its shape
is accepted. -/
theorem c1_parse_response_accepts_shapes_witness :
    acceptedTopLevelShape (Json.obj [("assignments", Json.arr [])]) = true :=
  c1_parse_response_accepts_shapes (Json.obj [("assignments", Json.arr [])]) rfl

/-- Counterexample for C1 as stated: a bare JSON array and an object keyed
`"data"` both parse successfully although neither is an object with the
single key `"assignments"` — the shapes are silently coerced, not rejected. -/
theorem c1_counterexample :
    parse_response (Json.arr []) = .ok [] ∧
    specAssignmentsShape (Json.arr []) = false ∧
    parse_response (Json.obj [("data", Json.arr [])]) = .ok [] ∧
    specAssignmentsShape (Json.obj [("data", Json.arr [])]) = false :=
  ⟨rfl, rfl, rfl, rfl⟩
